import Mathlib

/-!
Shallow embedding of `src/cogs/dashboard_webhook.py` (the `DashboardWebhook`
cog of the Modmail repository).

The cog relays inbound DM messages to a dashboard endpoint via a webhook
POST, and offers two administrator commands: a status report with a health
probe, and a test-send command.

Network behaviour is modelled by an oracle (`NetResult` for the POST,
`ProbeResult` for the health GET) describing what the remote side / transport
does on the single request a call performs.  Exceptions raised anywhere inside
the `try` block of `send_to_dashboard` (timeouts, `aiohttp.ClientError`
subclasses such as connection/DNS/TLS failures or content-type errors, and any
other `Exception` such as a JSON decode error on a malformed body) are
represented by the oracle's `timeout`, `clientError` and `otherError`
constructors, because the Python `except` clauses catch them identically
wherever in the block they arise.
-/

/-- An `aiohttp.ClientSession`: the only observable state used by the cog is
whether it is closed. -/
structure Session where
  closed : Bool
deriving DecidableEq

/-- A `discord.Attachment` as consumed by `_format_attachments`:
`content_type` may be absent (`None`). -/
structure Attachment where
  url : String
  filename : String
  content_type : Option String
  size : Nat
deriving DecidableEq

/-- One entry of the `attachments` list of the webhook payload, as built by
`_format_attachments`. -/
structure AttachmentPayload where
  url : String
  filename : String
  content_type : String
  size : Nat
deriving DecidableEq

/-- A `discord.User` as consumed by the cog: `id`, `bot` flag, the rendering
`str(user)` (stored as `name`), the optional custom avatar URL
(`user.avatar.url` when `user.avatar` is set) and the always-present default
avatar URL (`user.default_avatar.url`). -/
structure User where
  id : Nat
  bot : Bool
  name : String
  avatar : Option String
  default_avatar_url : String
deriving DecidableEq

/-- A `discord.Message` as consumed by `on_message`: `isDMChannel` is
`isinstance(message.channel, discord.DMChannel)`. -/
structure Message where
  author : User
  isDMChannel : Bool
  content : String
  id : Nat
  attachments : List Attachment
deriving DecidableEq

/-- The JSON payload `send_to_dashboard` posts to the webhook (the
`TransportRecord` of the spec). -/
structure Payload where
  discord_user_id : String
  discord_username : String
  content : String
  discord_avatar_url : Option String
  discord_message_id : Option String
  attachments : List AttachmentPayload
deriving DecidableEq

/-- The delivery-relevant state of the `DashboardWebhook` cog: the HTTP
session (`None` until `cog_load` runs), the endpoint URL and the shared
secret. -/
structure Client where
  session : Option Session
  webhook_url : String
  webhook_secret : String
deriving DecidableEq

/-- `DashboardWebhook._get_avatar_url`: returns `str(user.avatar.url)` when a
custom avatar is set, else `str(user.default_avatar.url)`.  The declared
return type is `Optional[str]` but no branch returns `None`. -/
def get_avatar_url (user : User) : Option String :=
  match user.avatar with
  | some a => some a
  | none => some user.default_avatar_url

/-- `DashboardWebhook._format_attachments`: maps each attachment to a
`{url, filename, content_type, size}` dict, defaulting a missing content type
to `application/octet-stream`. -/
def format_attachments (attachments : List Attachment) : List AttachmentPayload :=
  attachments.map fun att =>
    { url := att.url
      filename := att.filename
      content_type := att.content_type.getD "application/octet-stream"
      size := att.size }

/-- Oracle for the behaviour of the POST performed by `send_to_dashboard`:
either a clean HTTP response (status, the parsed JSON object of the body used
on status 200, the body text used on other statuses), or an exception
classified by the Python `except` clause that catches it
(`asyncio.TimeoutError` / `aiohttp.ClientError` / any other `Exception`). -/
inductive NetResult where
  | response (status : Nat) (bodyJson : List (String × String)) (bodyText : String)
  | timeout
  | clientError (msg : String)
  | otherError (msg : String)
deriving DecidableEq

/-- The spec's `DeliveryOutcome` taxonomy; `success` carries the correlation
token `result.get('ticket_id', 'unknown')` that the code extracts from the
200-response body. -/
inductive Outcome where
  | success (ticket : String)
  | notConfigured
  | timeout
  | transportError (msg : String)
  | badStatus (status : Nat) (body : String)
  | internalError (msg : String)
deriving DecidableEq

/-- Result of one `send_to_dashboard` call: the returned boolean, the
classified outcome, and how many requests reached the transport layer. -/
structure SendResult where
  ok : Bool
  outcome : Outcome
  networkCalls : Nat
deriving DecidableEq

/-- `DashboardWebhook.send_to_dashboard`: returns `False` immediately when the
session is uninitialized or the URL is empty (no request is made); otherwise
performs exactly one POST and classifies what the oracle says happened:
HTTP 200 parses the body JSON and succeeds, any other status fails with the
status and body text, and each caught exception class fails with its
classification. -/
def send_to_dashboard (c : Client) (p : Payload) (net : NetResult) : SendResult :=
  if c.session.isNone then ⟨false, .notConfigured, 0⟩
  else if c.webhook_url = "" then ⟨false, .notConfigured, 0⟩
  else
    match net with
    | .response status bodyJson bodyText =>
        if status = 200 then
          ⟨true, .success ((bodyJson.lookup "ticket_id").getD "unknown"), 1⟩
        else
          ⟨false, .badStatus status bodyText, 1⟩
    | .timeout => ⟨false, .timeout, 1⟩
    | .clientError m => ⟨false, .transportError m, 1⟩
    | .otherError m => ⟨false, .internalError m, 1⟩

/-- The host bot as consumed by `on_message`: the command parser
(`(await self.bot.get_context(message)).valid`) and the optional blocked-user
registry (`none` models the host not having a `blocked_users` attribute). -/
structure Host where
  ctxValid : Message → Bool
  blocked_users : Option (List Nat)

/-- The check `hasattr(self.bot, 'blocked_users') and message.author.id in
self.bot.blocked_users`. -/
def is_blocked (host : Host) (m : Message) : Bool :=
  match host.blocked_users with
  | some l => l.contains m.author.id
  | none => false

/-- The payload `on_message` builds for a message that passed the filter
(the keyword arguments of its `send_to_dashboard` call). -/
def build_payload (m : Message) : Payload :=
  { discord_user_id := toString m.author.id
    discord_username := m.author.name
    content := if m.content = "" then "(No text content)" else m.content
    discord_avatar_url := get_avatar_url m.author
    discord_message_id := some (toString m.id)
    attachments := format_attachments m.attachments }

/-- `DashboardWebhook.on_message`, up to the single `send_to_dashboard` call:
`none` when one of the four filter steps discards the message, otherwise
`some` of the payload passed to `send_to_dashboard`. -/
def on_message_payload (host : Host) (m : Message) : Option Payload :=
  if m.author.bot then none
  else if !m.isDMChannel then none
  else if host.ctxValid m then none
  else if is_blocked host m then none
  else some (build_payload m)

/-- The list of payloads `on_message` hands to `send_to_dashboard` for one
inbound message event (empty or a singleton). -/
def on_message_deliveries (host : Host) (m : Message) : List Payload :=
  match on_message_payload host m with
  | some p => [p]
  | none => []

/-- Oracle for the health-probe GET of `dashboard_status`: a clean response
status, or an exception with message `str(e)`. -/
inductive ProbeResult where
  | status (code : Nat)
  | exn (msg : String)
deriving DecidableEq

/-- The value of the `Connection Test` embed field for a given probe
behaviour. -/
def connection_test_value : ProbeResult → String
  | .status code =>
      if code = 200 then "✅ Endpoint reachable"
      else "⚠️ Status " ++ toString code
  | .exn m => "❌ Failed: " ++ m.take 50

/-- The health-check URL:
`self.webhook_url.replace("/discord-modmail-webhook", "/health")`. -/
def health_url (url : String) : String :=
  url.replace "/discord-modmail-webhook" "/health"

/-- The observable output of `dashboard_status`: the embed's
`(name, value)` fields in order, and the list of `(url, timeout)` GET probes
performed. -/
structure StatusReport where
  fields : List (String × String)
  probes : List (String × Nat)
deriving DecidableEq

/-- `DashboardWebhook.dashboard_status`: builds the three configuration
fields, and when an endpoint URL is configured additionally performs one GET
to the derived health URL with a 5-second timeout and appends a
`Connection Test` field rendering the probe's outcome. -/
def dashboard_status (c : Client) (probe : ProbeResult) : StatusReport :=
  let baseFields : List (String × String) :=
    [ ("Webhook URL",
        if c.webhook_url = "" then "Not configured"
        else "```" ++ c.webhook_url.take 50 ++ "...```"),
      ("Secret Configured", if c.webhook_secret = "" then "❌ No" else "✅ Yes"),
      ("Session Active",
        match c.session with
        | some s => if s.closed then "❌ No" else "✅ Yes"
        | none => "❌ No") ]
  if c.webhook_url = "" then ⟨baseFields, []⟩
  else
    ⟨baseFields ++ [("Connection Test", connection_test_value probe)],
     [(health_url c.webhook_url, 5)]⟩

/-- The payload `test_dashboard` builds from the invoking context: caller
identity, `"(TEST)"`-suffixed username, `"[TEST] "`-prefixed body (with the
default text when no message argument is given), and no attachments
(`send_to_dashboard`'s `attachments` default of `None` becomes `[]`). -/
def test_dashboard_payload (author : User) (ctx_message_id : Nat)
    (message : Option String) : Payload :=
  let msg := message.getD "Test message from bot"
  { discord_user_id := toString author.id
    discord_username := author.name ++ " (TEST)"
    content := "[TEST] " ++ msg
    discord_avatar_url := get_avatar_url author
    discord_message_id := some (toString ctx_message_id)
    attachments := [] }

/-- `DashboardWebhook.test_dashboard`: runs the test payload through the same
`send_to_dashboard` path as a real event. -/
def test_dashboard (c : Client) (author : User) (ctx_message_id : Nat)
    (message : Option String) (net : NetResult) : SendResult :=
  send_to_dashboard c (test_dashboard_payload author ctx_message_id message) net

/-! ### Concrete fixtures used by witnesses -/

/-- A concrete configured client (open session, the default endpoint URL, a
non-empty secret). -/
def clientEx : Client :=
  ⟨some ⟨false⟩,
   "https://qlnbergwjfrmgkjhrbkj.supabase.co/functions/v1/discord-modmail-webhook",
   "secret"⟩

/-- A concrete human user with no custom avatar. -/
def userEx : User := ⟨42, false, "alice#1234", none, "https://cdn.test/embed/avatars/0.png"⟩

/-- A concrete host whose command parser accepts nothing and whose blocked
registry contains only user 7. -/
def hostEx : Host := ⟨fun _ => false, some [7]⟩

/-- A concrete inbound DM with empty text and one attachment lacking a
declared content type. -/
def msgEx : Message :=
  ⟨userEx, true, "", 11, [⟨"https://cdn.test/a.png", "a.png", none, 123⟩]⟩

/-- The payload `on_message` builds for `msgEx`. -/
def payloadEx : Payload := build_payload msgEx

/-! ### Helper lemmas -/

/-- Every user has some avatar URL (custom or default). -/
theorem get_avatar_url_eq (u : User) :
    get_avatar_url u = some (u.avatar.getD u.default_avatar_url) := by
  cases hA : u.avatar <;> simp [get_avatar_url, hA]

/-- A warning rendering never coincides with the reachable rendering. -/
theorem warn_ne_reachable (u : String) : "⚠️ Status " ++ u ≠ "✅ Endpoint reachable" := by
  intro h
  have h1 := congrArg (fun t => t.data.head?) h
  simp only [String.data_append, List.head?_append] at h1
  simp at h1

/-- A failure rendering never coincides with the reachable rendering. -/
theorem failed_ne_reachable (u : String) : "❌ Failed: " ++ u ≠ "✅ Endpoint reachable" := by
  intro h
  have h1 := congrArg (fun t => t.data.head?) h
  simp only [String.data_append, List.head?_append] at h1
  simp at h1

/-- A warning rendering never coincides with a failure rendering. -/
theorem warn_ne_failed (u v : String) : "⚠️ Status " ++ u ≠ "❌ Failed: " ++ v := by
  intro h
  have h1 := congrArg (fun t => t.data.head?) h
  simp only [String.data_append, List.head?_append] at h1
  simp at h1

/-! ### Claims -/

/-- C1: for every inbound message event, `on_message` makes zero
`send_to_dashboard` calls when the event is bot-authored, not in a DM
channel, recognized as a valid command, or from a blocked origin (when the
registry exists), and exactly one call otherwise. -/
theorem on_message_delivery_count (host : Host) (m : Message) :
    (on_message_deliveries host m).length =
      if m.author.bot || !m.isDMChannel || host.ctxValid m || is_blocked host m
      then 0 else 1 := by
  unfold on_message_deliveries on_message_payload
  cases hb : m.author.bot <;> cases hd : m.isDMChannel <;>
    cases hc : host.ctxValid m <;> cases hbl : is_blocked host m <;>
      simp [hb, hd, hc, hbl]

/-- C2: with an uninitialized session or an empty endpoint URL,
`send_to_dashboard` returns a failure classified not-configured and performs
no network call, whatever the transport would have done. -/
theorem send_to_dashboard_not_configured (c : Client) (p : Payload) (net : NetResult)
    (h : c.session = none ∨ c.webhook_url = "") :
    send_to_dashboard c p net = ⟨false, .notConfigured, 0⟩ := by
  rcases h with h | h
  · simp [send_to_dashboard, h]
  · cases hs : c.session <;> simp [send_to_dashboard, h, hs]

/-- C2 witness: a client with no session and empty URL. -/
theorem send_to_dashboard_not_configured_witness :
    send_to_dashboard ⟨none, "", ""⟩ payloadEx .timeout = ⟨false, .notConfigured, 0⟩ :=
  send_to_dashboard_not_configured _ _ _ (Or.inl rfl)

/-- C3: on a configured client every transport/response fault is caught at
the call boundary and converted to a classified failure value — timeout,
transport error (`aiohttp.ClientError`), or internal error (any other
exception, including a JSON parse failure on a malformed body) — so no
exception reaches the caller. -/
theorem send_to_dashboard_fault_isolation (c : Client) (p : Payload)
    (hs : c.session.isSome) (hu : c.webhook_url ≠ "") :
    send_to_dashboard c p .timeout = ⟨false, .timeout, 1⟩ ∧
    (∀ m, send_to_dashboard c p (.clientError m) = ⟨false, .transportError m, 1⟩) ∧
    (∀ m, send_to_dashboard c p (.otherError m) = ⟨false, .internalError m, 1⟩) := by
  obtain ⟨s, hsess⟩ := Option.isSome_iff_exists.mp hs
  refine ⟨?_, fun m => ?_, fun m => ?_⟩ <;> simp [send_to_dashboard, hsess, hu]

/-- C3 witness: fault classifications at the concrete configured client. -/
theorem send_to_dashboard_fault_isolation_witness :
    send_to_dashboard clientEx payloadEx .timeout = ⟨false, .timeout, 1⟩ ∧
    send_to_dashboard clientEx payloadEx (.clientError "connection refused") =
      ⟨false, .transportError "connection refused", 1⟩ ∧
    send_to_dashboard clientEx payloadEx (.otherError "boom") =
      ⟨false, .internalError "boom", 1⟩ :=
  ⟨(send_to_dashboard_fault_isolation clientEx payloadEx (by decide) (by decide)).1,
   (send_to_dashboard_fault_isolation clientEx payloadEx (by decide) (by decide)).2.1
     "connection refused",
   (send_to_dashboard_fault_isolation clientEx payloadEx (by decide) (by decide)).2.2 "boom"⟩

/-- C4: on a configured client an HTTP 200 response has its body parsed as
JSON, the optional `ticket_id` correlation token extracted, and yields
success; in particular a body with `ticket_id` bound to `T1` yields success
carrying `T1`. -/
theorem send_to_dashboard_http200 (c : Client) (p : Payload)
    (hs : c.session.isSome) (hu : c.webhook_url ≠ "") :
    (∀ j t, send_to_dashboard c p (.response 200 j t) =
        ⟨true, .success ((j.lookup "ticket_id").getD "unknown"), 1⟩) ∧
    (∀ t, send_to_dashboard c p (.response 200 [("ticket_id", "T1")] t) =
        ⟨true, .success "T1", 1⟩) := by
  obtain ⟨s, hsess⟩ := Option.isSome_iff_exists.mp hs
  constructor
  · intro j t
    simp [send_to_dashboard, hsess, hu]
  · intro t
    simp [send_to_dashboard, hsess, hu, List.lookup]

/-- C4 witness: a 200 response carrying ticket `T1` at the concrete client. -/
theorem send_to_dashboard_http200_witness :
    send_to_dashboard clientEx payloadEx (.response 200 [("ticket_id", "T1")] "") =
      ⟨true, .success "T1", 1⟩ :=
  (send_to_dashboard_http200 clientEx payloadEx (by decide) (by decide)).2 ""

/-- C5: on a configured client any non-200 response yields a failure carrying
the status code and the body text; in particular a 500 response with body
`oops` yields bad-status 500 `oops`. -/
theorem send_to_dashboard_bad_status (c : Client) (p : Payload)
    (hs : c.session.isSome) (hu : c.webhook_url ≠ "") :
    ∀ status j t, status ≠ 200 →
      send_to_dashboard c p (.response status j t) = ⟨false, .badStatus status t, 1⟩ := by
  obtain ⟨s, hsess⟩ := Option.isSome_iff_exists.mp hs
  intro status j t hstatus
  simp [send_to_dashboard, hsess, hu, hstatus]

/-- C5 witness: a 500 response with body `oops` at the concrete client. -/
theorem send_to_dashboard_bad_status_witness :
    send_to_dashboard clientEx payloadEx (.response 500 [] "oops") =
      ⟨false, .badStatus 500 "oops", 1⟩ :=
  send_to_dashboard_bad_status clientEx payloadEx (by decide) (by decide) 500 [] "oops"
    (by decide)

/-- C6: a message that passes the filter yields a payload with stringified
origin and event identifiers, the display name, the body text (or the
placeholder when empty), the avatar URL (or the default-avatar URL), and the
attachment list mapped one-to-one (same length and order) with the content
type defaulted when absent. -/
theorem on_message_payload_fields (host : Host) (m : Message)
    (hb : m.author.bot = false) (hd : m.isDMChannel = true)
    (hc : host.ctxValid m = false) (hbl : is_blocked host m = false) :
    on_message_payload host m = some
      { discord_user_id := toString m.author.id
        discord_username := m.author.name
        content := if m.content = "" then "(No text content)" else m.content
        discord_avatar_url := some (m.author.avatar.getD m.author.default_avatar_url)
        discord_message_id := some (toString m.id)
        attachments := m.attachments.map fun att =>
          { url := att.url
            filename := att.filename
            content_type := att.content_type.getD "application/octet-stream"
            size := att.size } } ∧
    (format_attachments m.attachments).length = m.attachments.length := by
  constructor
  · simp [on_message_payload, hb, hd, hc, hbl, build_payload, get_avatar_url_eq,
      format_attachments]
  · simp [format_attachments]

/-- C6 witness: the concrete DM with empty text and a content-type-less
attachment produces the placeholder text, the default avatar, and the
defaulted content type. -/
theorem on_message_payload_fields_witness :
    on_message_payload hostEx msgEx = some
      ⟨"42", "alice#1234", "(No text content)", some "https://cdn.test/embed/avatars/0.png",
       some "11", [⟨"https://cdn.test/a.png", "a.png", "application/octet-stream", 123⟩]⟩ ∧
    (format_attachments msgEx.attachments).length = msgEx.attachments.length := by
  have h := on_message_payload_fields hostEx msgEx rfl rfl rfl rfl
  exact ⟨h.1.trans (by decide), h.2⟩

/-- C7: the status report depends on the secret only through its emptiness —
the empty secret renders `Secret Configured` as No, any non-empty secret
renders Yes, and the whole report is identical for any two non-empty
secrets, so the report cannot leak the secret value. -/
theorem dashboard_status_secret_noninterference (c : Client) (probe : ProbeResult)
    (s1 s2 : String) (h1 : s1 ≠ "") (h2 : s2 ≠ "") :
    ("Secret Configured", "❌ No") ∈
        (dashboard_status { c with webhook_secret := "" } probe).fields ∧
    ("Secret Configured", "✅ Yes") ∈
        (dashboard_status { c with webhook_secret := s1 } probe).fields ∧
    dashboard_status { c with webhook_secret := s1 } probe =
      dashboard_status { c with webhook_secret := s2 } probe := by
  by_cases hu : c.webhook_url = "" <;>
    refine ⟨?_, ?_, ?_⟩ <;> simp [dashboard_status, hu, h1, h2]

/-- C7 witness: distinct non-empty secrets `a` and `b` at the concrete
client give identical reports; the Yes/No fields render as stated. -/
theorem dashboard_status_secret_noninterference_witness :
    ("Secret Configured", "❌ No") ∈
        (dashboard_status { clientEx with webhook_secret := "" } (.status 200)).fields ∧
    ("Secret Configured", "✅ Yes") ∈
        (dashboard_status { clientEx with webhook_secret := "a" } (.status 200)).fields ∧
    dashboard_status { clientEx with webhook_secret := "a" } (.status 200) =
      dashboard_status { clientEx with webhook_secret := "b" } (.status 200) :=
  dashboard_status_secret_noninterference clientEx (.status 200) "a" "b"
    (by decide) (by decide)

/-- C8: with no endpoint configured the status report performs no health
probe; with an endpoint configured it performs exactly one GET, to the URL
with its relay suffix replaced by `/health`, with a 5-unit timeout, and the
`Connection Test` field renders the 200, non-200 and exception outcomes with
three pairwise-distinct renderings. -/
theorem dashboard_status_health_probe (c : Client) (probe : ProbeResult) :
    (c.webhook_url = "" → (dashboard_status c probe).probes = []) ∧
    (c.webhook_url ≠ "" →
      (dashboard_status c probe).probes = [(health_url c.webhook_url, 5)] ∧
      ("Connection Test", connection_test_value probe) ∈ (dashboard_status c probe).fields) ∧
    connection_test_value (.status 200) = "✅ Endpoint reachable" ∧
    (∀ s, s ≠ 200 → connection_test_value (.status s) = "⚠️ Status " ++ toString s) ∧
    (∀ m, connection_test_value (.exn m) = "❌ Failed: " ++ m.take 50) ∧
    (∀ s m, s ≠ 200 →
      connection_test_value (.status s) ≠ connection_test_value (.status 200) ∧
      connection_test_value (.exn m) ≠ connection_test_value (.status 200) ∧
      connection_test_value (.status s) ≠ connection_test_value (.exn m)) := by
  refine ⟨fun h => by simp [dashboard_status, h],
          fun h => ⟨by simp [dashboard_status, h], by simp [dashboard_status, h]⟩,
          rfl,
          fun s hs => by simp [connection_test_value, hs],
          fun m => rfl,
          fun s m hs => ?_⟩
  have e1 : connection_test_value (.status s) = "⚠️ Status " ++ toString s := by
    simp [connection_test_value, hs]
  have e2 : connection_test_value (.exn m) = "❌ Failed: " ++ m.take 50 := rfl
  have e3 : connection_test_value (.status 200) = "✅ Endpoint reachable" := rfl
  rw [e1, e2, e3]
  exact ⟨warn_ne_reachable _, failed_ne_reachable _, warn_ne_failed _ _⟩

/-- C8 witness: the concrete configured client probes exactly the derived
health URL with timeout 5 and renders a reachable outcome; the same client
with the URL emptied performs no probe; a 500 probe renders its status. -/
theorem dashboard_status_health_probe_witness :
    (dashboard_status clientEx (.status 200)).probes = [(health_url clientEx.webhook_url, 5)] ∧
    ("Connection Test", "✅ Endpoint reachable") ∈ (dashboard_status clientEx (.status 200)).fields ∧
    connection_test_value (.status 500) = "⚠️ Status 500" ∧
    (dashboard_status { clientEx with webhook_url := "" } (.status 200)).probes = [] := by
  have h := dashboard_status_health_probe clientEx (.status 200)
  have h0 := (dashboard_status_health_probe { clientEx with webhook_url := "" } (.status 200)).1 rfl
  have hu : clientEx.webhook_url ≠ "" := by decide
  refine ⟨(h.2.1 hu).1, (h.2.1 hu).2, ?_, h0⟩
  have h500 := h.2.2.2.1 500 (by decide)
  rw [h500]
  decide

/-- C9: the test command builds its record from the invoking caller's
identity with the body prefixed by `[TEST] ` (applied to the default text
when no message is given) and runs it through the same `send_to_dashboard`
path as a real event; message `hello` from caller 42 yields content
`[TEST] hello` and origin identifier `42`. -/
theorem test_dashboard_record (author : User) (cid : Nat) :
    (∀ m, (test_dashboard_payload author cid (some m)).content = "[TEST] " ++ m) ∧
    (∀ m, (test_dashboard_payload author cid m).discord_user_id = toString author.id) ∧
    (test_dashboard_payload author cid none).content = "[TEST] Test message from bot" ∧
    (∀ c m net, test_dashboard c author cid m net =
        send_to_dashboard c (test_dashboard_payload author cid m) net) ∧
    (test_dashboard_payload ⟨42, false, "caller", none, "d"⟩ 7 (some "hello")).content =
      "[TEST] hello" ∧
    (test_dashboard_payload ⟨42, false, "caller", none, "d"⟩ 7 (some "hello")).discord_user_id =
      "42" :=
  ⟨fun _ => rfl, fun _ => rfl, rfl, fun _ _ _ => rfl, by decide, by decide⟩

/-- C10: `_get_avatar_url` always returns a non-None URL (the default-avatar
URL when no custom avatar is set), so every payload built by the listener or
by the test command carries a non-null avatar URL despite the declared
Optional return type. -/
theorem get_avatar_url_always_some (u : User) (host : Host) (m : Message) :
    (get_avatar_url u).isSome = true ∧
    (∀ p, on_message_payload host m = some p → p.discord_avatar_url.isSome = true) ∧
    (∀ author cid msg,
      (test_dashboard_payload author cid msg).discord_avatar_url.isSome = true) := by
  have key : ∀ v : User, (get_avatar_url v).isSome = true := fun v => by
    rw [get_avatar_url_eq]
    rfl
  refine ⟨key u, ?_, fun author cid msg => key author⟩
  intro p hp
  have hpb : p = build_payload m := by
    unfold on_message_payload at hp
    repeat' split at hp
    all_goals simp_all
  rw [hpb]
  exact key m.author

/-- C10 witness: the avatar-less concrete user still yields a payload with a
present avatar URL. -/
theorem get_avatar_url_always_some_witness :
    (get_avatar_url userEx).isSome = true ∧
    (build_payload msgEx).discord_avatar_url.isSome = true :=
  ⟨(get_avatar_url_always_some userEx hostEx msgEx).1,
   (get_avatar_url_always_some userEx hostEx msgEx).2.1 (build_payload msgEx) rfl⟩
